import Mathlib

/-!
Verification of the TNS (Transient Name Server) integration subsystem of the
skyportal repository, a shallow embedding of `skyportal/handlers/api/tns.py`
and `skyportal/models/tns.py`.

Stateful handler and orchestrator code is embedded as pure functions from an
explicit environment (the outcomes of database lookups and HTTP responses) to
a trace of observable effects (session lifecycle, network calls, commits,
client notifications, log lines) together with an `Except`-style result.
Python exceptions are explicit error values; Python `int(...)` parsing,
`str.split`, list `.index`, dict truthiness and attribute lookup are modelled
by executable Lean functions.
-/

deriving instance DecidableEq for Except

/-- Python exception values distinguished by the code paths under study. -/
inductive PyErr
  | valueError (msg : String)
  | keyError (key : String)
  | typeError (msg : String)
  | unboundLocalError (name : String)
  | indexError
  | externalError (what : String)
deriving DecidableEq

/-- Observable effects of the retrieval orchestrator functions
(`tns_retrieval` and `tns_bulk_retrieval` in `handlers/api/tns.py`). -/
inductive Effect
  | acquireOwnSession
  | useParentSession
  | searchRecent
  | resolveName
  | postObject
  | sleep (secs : Nat)
  | setTnsName (n : String)
  | setTnsInfo
  | logRateLimited
  | logPosting
  | postSource
  | addPhotometry
  | logPhotFail
  | logPhotSummary
  | logSpecReadFail
  | postSpectrum
  | logSuccess
  | logFetchFail
  | commit
  | flowPushRefreshSource
  | logError (e : PyErr)
  | sessionClose
  | sessionRemove
deriving DecidableEq

/-- Python `int(s)` on a string: optional surrounding whitespace, optional
sign, then at least one decimal digit (numeric-literal underscores are not
modelled); `none` models the raised `ValueError`. -/
def pyIntOfStr (s : String) : Option Int :=
  let isSpace : Char → Bool := fun c => c = ' ' || c = '\t' || c = '\n' || c = '\r'
  let isDigit : Char → Bool := fun c => 48 ≤ c.toNat && c.toNat ≤ 57
  let t := ((s.data.dropWhile isSpace).reverse.dropWhile isSpace).reverse
  let digitsVal : List Char → Option Nat := fun ds =>
    if ds ≠ [] && ds.all isDigit then
      some (ds.foldl (fun acc c => acc * 10 + (c.toNat - 48)) 0)
    else none
  match t with
  | '-' :: ds => (digitsVal ds).map (fun n => -(n : Int))
  | '+' :: ds => (digitsVal ds).map (fun n => (n : Int))
  | ds => (digitsVal ds).map (fun n => (n : Int))

/-- `'api_key' in altdata`: key membership in the decrypted credential
mapping (a Python dict, modelled as an association list). -/
def hasKey (m : List (String × String)) (k : String) : Bool :=
  (m.lookup k).isSome

/-- Python `str.split(sep)` with a one-character separator, on character
lists: splits at every separator, keeping empty pieces, and yields one
(possibly empty) piece even for the empty input. -/
def pySplitChars (sep : Char) : List Char → List (List Char)
  | [] => [[]]
  | c :: r =>
    let rest := pySplitChars sep r
    if c = sep then [] :: rest
    else
      match rest with
      | h :: t => (c :: h) :: t
      | [] => [[c]]

/-- Python `s.split(sep)` with a one-character separator. -/
def pySplit (s : String) (sep : Char) : List String :=
  (pySplitChars sep s.data).map String.mk

/-- The final value of `count` in the rate-limit `while` loop of
`tns_retrieval`: `while r.status_code == 429 and count < count_limit`,
with `count_limit = 5`; `st i` is the status of the `(i+1)`-th
`requests.post` to the object endpoint (index 0 = the initial request).
`fuel` mirrors the guaranteed termination bound of the loop. -/
def tnsRetryCount (st : Nat → Nat) (c : Nat) (fuel : Nat) : Nat :=
  match fuel with
  | 0 => c
  | Nat.succ f => if st c = 429 ∧ c < 5 then tnsRetryCount st (c + 1) f else c

/-- Effects of the retry loop body, run `r` times:
each iteration logs the rate-limit message, sleeps 30 seconds and
re-posts the request. -/
def retryEffects (r : Nat) : List Effect :=
  match r with
  | 0 => []
  | Nat.succ n => Effect.logRateLimited :: Effect.sleep 30 :: Effect.postObject :: retryEffects n

/-- Outcome of processing one TNS spectrum record in `tns_retrieval`:
`read_tns_spectrum` raising is caught (`continue`), `post_spectrum`
raising is NOT caught and aborts the whole object. -/
inductive SpecRec
  | readFails
  | postRaises
  | insOk
deriving DecidableEq

/-- The `reply` payload of a 200 object-fetch response: which sub-resource
lists are present, and the per-record outcomes (for photometry, `true`
means `read_tns_photometry` + `add_external_photometry` succeed). -/
structure SourceData where
  photometry : Option (List Bool)
  spectra : Option (List SpecRec)

/-- Environment of one `tns_retrieval` invocation: outcomes of the database
lookups, of `get_IAUname`, and the status codes of the successive
`requests.post` calls to the TNS object endpoint. -/
structure TnsEnv where
  objFound : Bool
  robotFound : Bool
  altdata : List (String × String)
  iauName : Option String
  statuses : Nat → Nat
  reply : Option SourceData
  includePhotometry : Bool
  includeSpectra : Bool

/-- Photometry loop of `tns_retrieval`: per-record failures are caught,
logged and collected; a non-empty failure list is logged as a summary. -/
def photLoop : List Bool → List Effect
  | [] => []
  | true :: r => Effect.addPhotometry :: photLoop r
  | false :: r => Effect.logPhotFail :: photLoop r

/-- Spectra loop of `tns_retrieval`: a `read_tns_spectrum` failure logs and
continues; a `post_spectrum` failure raises out of the loop. -/
def specLoop : List SpecRec → List Effect × Option PyErr
  | [] => ([], none)
  | SpecRec.readFails :: r =>
      let p := specLoop r
      (Effect.logSpecReadFail :: p.1, p.2)
  | SpecRec.postRaises :: _ => ([], some (PyErr.externalError "post_spectrum"))
  | SpecRec.insOk :: r =>
      let p := specLoop r
      (Effect.postSpectrum :: p.1, p.2)

/-- Effects of the photometry phase (`if include_photometry and
'photometry' in source_data:`, source lines 517-541). -/
def photPart (inc : Bool) (ph : Option (List Bool)) : List Effect :=
  match inc, ph with
  | true, some l => photLoop l ++ (if l.any (fun b => ¬ b) then [Effect.logPhotSummary] else [])
  | _, _ => []

/-- Effects and possible exception of the spectra phase
(`if include_spectra and 'spectra' in source_data:`, source lines 542-562). -/
def specPart (inc : Bool) (sp : Option (List SpecRec)) : List Effect × Option PyErr :=
  match inc, sp with
  | true, some l => specLoop l
  | _, _ => ([], none)

/-- Effects of the `if r.status_code == 200: if source_data:` block. -/
def replyEffects (e : TnsEnv) (sd : SourceData) : List Effect × Option PyErr :=
  (Effect.setTnsInfo
     :: photPart e.includePhotometry sd.photometry
     ++ (specPart e.includeSpectra sd.spectra).1,
   (specPart e.includeSpectra sd.spectra).2)

/-- Body of the `try:` block of `tns_retrieval` (source lines 442-573):
the effects it performs and the exception it raises, if any. -/
def tnsBody (e : TnsEnv) : List Effect × Option PyErr :=
  if ¬ e.objFound then ([], some (PyErr.valueError "No object available")) else
  if ¬ e.robotFound then ([], some (PyErr.valueError "No TNSRobot available")) else
  if e.altdata = [] then ([], some (PyErr.valueError "Missing TNS information.")) else
  if ¬ hasKey e.altdata "api_key" then ([], some (PyErr.valueError "Missing TNS API key.")) else
  match e.iauName with
  | none => ([Effect.resolveName], some (PyErr.valueError "not yet posted to TNS."))
  | some nm =>
    let r := tnsRetryCount e.statuses 0 6
    let pre := [Effect.resolveName, Effect.setTnsName nm, Effect.postObject] ++ retryEffects r
    if r = 5 then
      (pre, some (PyErr.valueError "TNS request failed: request rate exceeded."))
    else if e.statuses r = 200 then
      match e.reply with
      | none => (pre ++ [Effect.logSuccess, Effect.commit, Effect.flowPushRefreshSource], none)
      | some sd =>
        let p := replyEffects e sd
        match p.2 with
        | some er => (pre ++ p.1, some er)
        | none => (pre ++ p.1 ++ [Effect.logSuccess, Effect.commit, Effect.flowPushRefreshSource], none)
    else
      (pre ++ [Effect.logFetchFail, Effect.commit, Effect.flowPushRefreshSource], none)

/-- The `except Exception as e: log(...)` handler: one log line when an
exception was raised, nothing otherwise. -/
def logCaught : Option PyErr → List Effect
  | some er => [Effect.logError er]
  | none => []

/-- `tns_retrieval(obj_id, tnsrobot_id, user_id, ..., parent_session)`.
`parentSession` is `parent_session is not None`. Any exception from the body
is caught and logged; the `finally` block closes and releases the session
only when `parent_session is not None` (the condition as written in the
source, lines 577-580). -/
def tns_retrieval (e : TnsEnv) (parentSession : Bool) : List Effect :=
  (if parentSession then [Effect.useParentSession] else [Effect.acquireOwnSession])
  ++ (tnsBody e).1
  ++ logCaught (tnsBody e).2
  ++ (if parentSession then [Effect.sessionClose, Effect.sessionRemove] else [])

/-- One element of the TNS search result in `tns_bulk_retrieval`: whether a
local `Obj` already exists, whether `post_source` raises when invoked, and
the environment seen by the inner `tns_retrieval` call. -/
structure BulkSource where
  objExists : Bool
  postSourceFails : Bool
  inner : TnsEnv

/-- Environment of one `tns_bulk_retrieval` invocation. -/
structure BulkEnv where
  robotFound : Bool
  altdata : List (String × String)
  sources : List BulkSource

/-- The per-source loop of `tns_bulk_retrieval` (source lines 385-399):
creates missing sources and runs the inner retrieval on the shared session;
a `post_source` exception aborts the loop. -/
def tnsBulkLoop : List BulkSource → List Effect × Option PyErr
  | [] => ([], none)
  | s :: rest =>
    if ¬ s.objExists ∧ s.postSourceFails then
      ([Effect.logPosting], some (PyErr.externalError "post_source"))
    else
      let pre := if s.objExists then [] else [Effect.logPosting, Effect.postSource]
      let innerTrace := tns_retrieval s.inner true
      let p := tnsBulkLoop rest
      (pre ++ innerTrace ++ p.1, p.2)

/-- Body of the `try:` block of `tns_bulk_retrieval` (source lines 364-400). -/
def tnsBulkBody (e : BulkEnv) : List Effect × Option PyErr :=
  if ¬ e.robotFound then ([], some (PyErr.valueError "No TNSRobot available")) else
  if e.altdata = [] then ([], some (PyErr.valueError "Missing TNS information.")) else
  if ¬ hasKey e.altdata "api_key" then ([], some (PyErr.valueError "Missing TNS API key.")) else
  match e.sources with
  | [] =>
    ([Effect.searchRecent], some (PyErr.valueError "No objects posted to TNS since start_date."))
  | s :: rest =>
    let p := tnsBulkLoop (s :: rest)
    match p.2 with
    | some er => (Effect.searchRecent :: p.1, some er)
    | none => (Effect.searchRecent :: p.1 ++ [Effect.commit], none)

/-- `tns_bulk_retrieval(start_date, tnsrobot_id, user_id, ...)`: acquires its
own session, catches and logs any exception, and unconditionally closes and
releases the session in `finally` (source lines 402-406). -/
def tns_bulk_retrieval (e : BulkEnv) : List Effect :=
  Effect.acquireOwnSession
  :: (tnsBulkBody e).1
  ++ logCaught (tnsBulkBody e).2
  ++ [Effect.sessionClose, Effect.sessionRemove]

/-- A handler outcome: `self.error(msg)` (a caller-visible validation/error
response) versus an uncaught Python exception propagating out of the
handler. -/
inductive HErr
  | handlerError (msg : String)
  | pyError (e : PyErr)
deriving DecidableEq

/-- Effects of the trigger handlers: launching the detached background
task via `IOLoop.current().run_in_executor`. -/
inductive HEffect
  | launchTask
deriving DecidableEq

/-- The JSON value supplied for `groupIds` in `BulkTNSHandler.post`. -/
inductive GroupIdsVal
  | absent
  | strV (s : String)
  | listV (l : List Int)
  | otherV
deriving DecidableEq

/-- `[int(x) for x in group_ids.split(",")]`: `none` models the raised
`ValueError` of the first non-numeric element. -/
def mapIntAll : List String → Option (List Int)
  | [] => some []
  | x :: xs =>
    match pyIntOfStr x with
    | none => none
    | some n => (mapIntAll xs).map (fun l => n :: l)

/-- Environment of one `BulkTNSHandler.post` request. -/
structure BulkHandlerEnv where
  groupIds : GroupIdsVal
  startDateRaises : Bool
  tnsrobotID : Option Int
  robotFound : Bool
  altdata : List (String × String)

/-- `BulkTNSHandler.post` (source lines 585-679): validates `groupIds`,
parses the start date, resolves robot and credentials, then launches
`tns_bulk_retrieval` as a detached task. -/
def bulkHandlerPost (e : BulkHandlerEnv) : List HEffect × Except HErr Unit :=
  match e.groupIds with
  | GroupIdsVal.absent => ([], Except.error (HErr.handlerError "group_ids is required"))
  | GroupIdsVal.otherV => ([], Except.error (HErr.handlerError "group_ids type not understood"))
  | gv =>
    let parsed : Except HErr Unit :=
      match gv with
      | GroupIdsVal.strV s =>
        match mapIntAll (pySplit s ',') with
        | none => Except.error (HErr.pyError (PyErr.valueError "invalid literal for int() with base 10"))
        | some _ => Except.ok ()
      | _ => Except.ok ()
    match parsed with
    | Except.error er => ([], Except.error er)
    | Except.ok _ =>
      if e.startDateRaises then ([], Except.error (HErr.pyError (PyErr.externalError "arrow"))) else
      match e.tnsrobotID with
      | none => ([], Except.error (HErr.handlerError "tnsrobotID is required"))
      | some _ =>
        if ¬ e.robotFound then ([], Except.error (HErr.handlerError "No TNSRobot available")) else
        if e.altdata = [] then ([], Except.error (HErr.handlerError "Missing TNS information.")) else
        if ¬ hasKey e.altdata "api_key" then ([], Except.error (HErr.handlerError "Missing TNS API key.")) else
        ([HEffect.launchTask], Except.ok ())

/-- Environment of one `ObjTNSHandler.get` request (the single-object
retrieval trigger). -/
structure ObjGetEnv where
  tnsrobotID : Option Int
  objFound : Bool
  robotFound : Bool
  altdata : List (String × String)

/-- `ObjTNSHandler.get` (source lines 684-749): resolves object, robot and
credentials, then launches `tns_retrieval` as a detached task. -/
def objTnsGet (e : ObjGetEnv) : List HEffect × Except HErr Unit :=
  match e.tnsrobotID with
  | none => ([], Except.error (HErr.handlerError "tnsrobotID is required"))
  | some _ =>
    if ¬ e.objFound then ([], Except.error (HErr.handlerError "No object available")) else
    if ¬ e.robotFound then ([], Except.error (HErr.handlerError "No TNSRobot available")) else
    if e.altdata = [] then ([], Except.error (HErr.handlerError "Missing TNS information.")) else
    if ¬ hasKey e.altdata "api_key" then ([], Except.error (HErr.handlerError "Missing TNS API key.")) else
    ([HEffect.launchTask], Except.ok ())

/-- The `reporters` value of an `ObjTNSHandler.post` request: a string or a
value of some other JSON type. -/
inductive RepVal
  | strR (s : String)
  | otherR
deriving DecidableEq

/-- Environment of one `ObjTNSHandler.post` request (the object push
trigger). -/
structure ObjPostEnv where
  tnsrobotID : Option Int
  reporters : RepVal
  archival : Bool
  archivalComment : String
  objFound : Bool
  robotFound : Bool
  altdata : List (String × String)

/-- `ObjTNSHandler.post` (source lines 752-832): validates reporters and the
archival comment, resolves object, robot and credentials, then launches
`post_tns` as a detached task. -/
def objTnsPost (e : ObjPostEnv) : List HEffect × Except HErr Unit :=
  match e.tnsrobotID with
  | none => ([], Except.error (HErr.handlerError "tnsrobotID is required"))
  | some _ =>
    match e.reporters with
    | RepVal.otherR => ([], Except.error (HErr.handlerError "reporters is required and must be a non-empty string"))
    | RepVal.strR rep =>
      if rep = "" then ([], Except.error (HErr.handlerError "reporters is required and must be a non-empty string")) else
      if ¬ e.objFound then ([], Except.error (HErr.handlerError "No object available")) else
      if ¬ e.robotFound then ([], Except.error (HErr.handlerError "No TNSRobot available")) else
      if e.archival ∧ e.archivalComment.length = 0 then
        ([], Except.error (HErr.handlerError "If source flagged as archival, archival_comment is required")) else
      if e.altdata = [] then ([], Except.error (HErr.handlerError "Missing TNS information.")) else
      if ¬ hasKey e.altdata "api_key" then ([], Except.error (HErr.handlerError "Missing TNS API key.")) else
      ([HEffect.launchTask], Except.ok ())

/-- Effects of the synchronous spectrum classification push
(`SpectrumTNSHandler.post`). -/
inductive SpecEffect
  | resolveName
  | fileWrite
  | uploadFile
  | bulkReport
deriving DecidableEq

/-- The classification report assembled by `SpectrumTNSHandler.post`
(source lines 1009-1036), restricted to the fields the claims inspect. -/
structure ClassificationReport where
  name : String
  spectypeid : Nat
  exptime : Option Rat
  redshift : Option Rat
deriving DecidableEq

/-- Success value of `SpectrumTNSHandler.post`: the TNS-assigned report id
and the submitted classification report. -/
structure SpecOk where
  tns_id : Nat
  report : ClassificationReport
deriving DecidableEq

/-- `['object', 'host', 'sky', 'arcs', 'synthetic'].index(spectrum_type)`:
first matching index, `none` models the raised `ValueError`. -/
def pyIndex (x : String) : Option Nat :=
  if x = "object" then some 0
  else if x = "host" then some 1
  else if x = "sky" then some 2
  else if x = "arcs" then some 3
  else if x = "synthetic" then some 4
  else none

/-- The five admissible `spectrumType` values. -/
def spectypeList : List String := ["object", "host", "sky", "arcs", "synthetic"]

/-- Environment of one `SpectrumTNSHandler.post` request. -/
structure SpecEnv where
  tnsrobotIDGiven : Bool
  robotFound : Bool
  altdata : List (String × String)
  spectrumFound : Bool
  iauName : Option String
  objRedshift : Option Rat
  spectrumType : String
  specHeader : Option (List (String × Rat))
  wav : List Rat
  flux : List Rat
  errs : Option (List Rat)
  uploadStatus : Nat
  uploadContent : String
  reportStatus : Nat
  reportContent : String
  reportId : Nat

/-- `exposure_time` extraction (source lines 968-972): the spectrum header
`altdata`, when present, is indexed by `EXPTIME` (a `KeyError` when the
header lacks it). -/
def exposureTimeOf (e : SpecEnv) : Except PyErr (Option Rat) :=
  match e.specHeader with
  | none => Except.ok none
  | some h =>
    match h.lookup "EXPTIME" with
    | none => Except.error (PyErr.keyError "EXPTIME")
    | some v => Except.ok (some v)

/-- The local variable `redshift` of `SpectrumTNSHandler.post`:
`if spectrum.obj.redshift: redshift = spectrum.obj.redshift` binds it only
when the object's redshift is truthy; `none` models the variable staying
unbound. -/
def redshiftLocal (e : SpecEnv) : Option Rat :=
  match e.objRedshift with
  | some z => if z ≠ 0 then some z else none
  | none => none

/-- `f.write(...)` loop over `range(len(wav))` (source lines 986-991):
an `IndexError` when `flux` (or `errors`, when present) is shorter than
`wavelengths`. -/
def fileWriteFails (e : SpecEnv) : Bool :=
  match e.errs with
  | some er => e.flux.length < e.wav.length || er.length < e.wav.length
  | none => e.flux.length < e.wav.length

/-- `SpectrumTNSHandler.post` (source lines 837-1048): the synchronous
spectrum classification push. Note that, unlike the three trigger handlers,
it checks only `if not altdata:` and never checks `'api_key' in altdata`
before evaluating `altdata['api_key']` (line 956). -/
def spectrumTnsPost (e : SpecEnv) : List SpecEffect × Except HErr SpecOk :=
  if ¬ e.tnsrobotIDGiven then ([], Except.error (HErr.handlerError "tnsrobotID is required")) else
  if ¬ e.robotFound then ([], Except.error (HErr.handlerError "No TNSRobot available")) else
  if e.altdata = [] then ([], Except.error (HErr.handlerError "Missing TNS information.")) else
  if ¬ e.spectrumFound then ([], Except.error (HErr.handlerError "No spectrum with ID")) else
  if ¬ hasKey e.altdata "api_key" then ([], Except.error (HErr.pyError (PyErr.keyError "api_key"))) else
  match e.iauName with
  | none => ([SpecEffect.resolveName], Except.error (HErr.handlerError "TNS name missing... please first post to TNS."))
  | some nm =>
    match pyIndex e.spectrumType with
    | none => ([SpecEffect.resolveName], Except.error (HErr.pyError (PyErr.valueError "is not in list")))
    | some i =>
      match exposureTimeOf e with
      | Except.error er => ([SpecEffect.resolveName], Except.error (HErr.pyError er))
      | Except.ok exptime =>
        if fileWriteFails e then ([SpecEffect.resolveName], Except.error (HErr.pyError PyErr.indexError)) else
        let effs1 := [SpecEffect.resolveName, SpecEffect.fileWrite, SpecEffect.uploadFile]
        if e.uploadStatus ≠ 200 then (effs1, Except.error (HErr.handlerError e.uploadContent)) else
        match redshiftLocal e with
        | none => (effs1, Except.error (HErr.pyError (PyErr.unboundLocalError "redshift")))
        | some z =>
          let rpt : ClassificationReport :=
            { name := nm, spectypeid := i + 1, exptime := exptime, redshift := some z }
          let effs2 := effs1 ++ [SpecEffect.bulkReport]
          if e.reportStatus = 200 then (effs2, Except.ok { tns_id := e.reportId, report := rpt })
          else (effs2, Except.error (HErr.handlerError e.reportContent))

/-- A scalar JSON value supplied for `bot_id` / `bot_name` /
`source_group_id` in `TNSRobotHandler.put`: an integer, a string, or a value
of another type (for which Python `int(...)` raises `TypeError`, which the
handler's `except ValueError` does not catch). -/
inductive ScalarVal
  | iv (n : Int)
  | sv (s : String)
  | otherSv
deriving DecidableEq

/-- An element of an `auto_report_group_ids` list. -/
inductive GrpElem
  | intE (n : Int)
  | strE (s : String)
  | otherE
deriving DecidableEq

/-- The JSON value supplied for `auto_report_group_ids`. -/
inductive ArgVal
  | strA (s : String)
  | listA (l : List GrpElem)
  | otherA
deriving DecidableEq

/-- The mutable fields of a `TNSRobot` row touched by
`TNSRobotHandler.put`. `auto_reporters = none` models SQL NULL. -/
structure RobotState where
  bot_id : Int
  bot_name : String
  source_group_id : Int
  auto_report_group_ids : Option (List GrpElem)
  auto_reporters : Option String
deriving DecidableEq

/-- The request body of `TNSRobotHandler.put`, restricted to the fields the
handler inspects; `none` means the key is absent. -/
structure PutData where
  bot_id : Option ScalarVal
  bot_name : Option ScalarVal
  source_group_id : Option ScalarVal
  auto_report_group_ids : Option ArgVal
  auto_reporters : Option String
deriving DecidableEq

/-- `int(v)` under `except ValueError` (source lines 214-217): integers pass
through, strings are parsed (`ValueError` is caught and turned into the
given handler error), other types raise an uncaught `TypeError`. -/
def pyIntChecked (v : ScalarVal) (msg : String) : Except HErr Int :=
  match v with
  | ScalarVal.iv n => Except.ok n
  | ScalarVal.sv s =>
    match pyIntOfStr s with
    | some n => Except.ok n
    | none => Except.error (HErr.handlerError msg)
  | ScalarVal.otherSv => Except.error (HErr.pyError (PyErr.typeError "int() argument must not be of this type"))

/-- Validation of one `auto_report_group_ids` element: `int(group_id)` under
`except ValueError` (source lines 249-255). -/
def checkGrpElem (g : GrpElem) : Except HErr Unit :=
  match g with
  | GrpElem.intE _ => Except.ok ()
  | GrpElem.strE s =>
    match pyIntOfStr s with
    | some _ => Except.ok ()
    | none => Except.error (HErr.handlerError "TNS auto report group IDs must be integers (if specified).")
  | GrpElem.otherE => Except.error (HErr.pyError (PyErr.typeError "int() argument must not be of this type"))

/-- Validation of a list of `auto_report_group_ids` elements. -/
def checkGrpList : List GrpElem → Except HErr Unit
  | [] => Except.ok ()
  | g :: gs =>
    match checkGrpElem g with
    | Except.error er => Except.error er
    | Except.ok _ => checkGrpList gs

/-- Early-return chaining of handler steps: an error response stops the
pipeline, a success feeds the next step. -/
def bindE {a b : Type} (x : Except HErr a) (f : a → Except HErr b) : Except HErr b :=
  match x with
  | Except.error er => Except.error er
  | Except.ok v => f v

/-- `bot_id` / `source_group_id` validation step: absent keys pass through,
present values go through checked `int(...)` conversion. -/
def intFieldStep (v : Option ScalarVal) (msg : String) : Except HErr (Option Int) :=
  match v with
  | none => Except.ok none
  | some sv => bindE (pyIntChecked sv msg) (fun n => Except.ok (some n))

/-- `bot_name` validation step (source lines 218-226). -/
def botNameStep (v : Option ScalarVal) : Except HErr (Option String) :=
  match v with
  | none => Except.ok none
  | some (ScalarVal.sv s) =>
    if s = "" then Except.error (HErr.handlerError "TNS bot name must be a non-empty string (if specified).")
    else Except.ok (some s)
  | some _ => Except.error (HErr.handlerError "TNS bot name must be a non-empty string (if specified).")

/-- `auto_report_group_ids` normalization (source lines 235-248): a string
is split on commas, a list is kept, any other type is a validation error. -/
def argStep (v : Option ArgVal) : Except HErr (Option (List GrpElem)) :=
  match v with
  | none => Except.ok none
  | some (ArgVal.strA s) => Except.ok (some ((pySplit s ',').map GrpElem.strE))
  | some (ArgVal.listA l) => Except.ok (some l)
  | some ArgVal.otherA => Except.error (HErr.handlerError "TNS auto report group IDs must be a list (if specified).")

/-- Per-element integer validation of the normalized group-id list
(source lines 249-255). -/
def argCheck : Option (List GrpElem) → Except HErr Unit
  | none => Except.ok ()
  | some l => checkGrpList l

/-- `if len(data['auto_report_group_ids']) == 0: data['auto_reporters'] = ''`
(source lines 256-257): the value of the `auto_reporters` key of the
(possibly mutated) request data. -/
def effAutoReporters (arg? : Option (List GrpElem)) (supplied : Option String) : Option String :=
  match arg? with
  | some [] => some ""
  | _ => supplied

/-- `TNSRobotHandler.put` (source lines 187-288): validates the supplied
fields, normalizes `auto_report_group_ids`, sets `data['auto_reporters']`
to the empty string when the normalized list is empty, enforces the
non-empty-reporters invariant, then applies every supplied field to the
robot with `setattr` and commits. Returns the updated robot row. -/
def tnsrobotPut (d : PutData) (robotFound : Bool) (r : RobotState) : Except HErr RobotState :=
  bindE (intFieldStep d.bot_id "TNS bot ID must be an integer (if specified).") fun botId? =>
  bindE (botNameStep d.bot_name) fun botName? =>
  bindE (intFieldStep d.source_group_id "TNS source group ID must be an integer (if specified).") fun srcGrp? =>
  bindE (argStep d.auto_report_group_ids) fun arg? =>
  bindE (argCheck arg?) fun _ =>
  let autoReporters? := effAutoReporters arg? d.auto_reporters
  if ¬ robotFound then Except.error (HErr.handlerError "No TNS robot with ID") else
  if (match arg? with | none => 0 | some l => l.length) > 0
     ∧ (autoReporters? = none ∨ autoReporters? = some "")
     ∧ (r.auto_reporters = none ∨ r.auto_reporters = some "") then
    Except.error (HErr.handlerError "TNS auto reporters must be a non-empty string when auto report group IDs are specified.")
  else
    Except.ok
      { bot_id := botId?.getD r.bot_id
        bot_name := botName?.getD r.bot_name
        source_group_id := srcGrp?.getD r.source_group_id
        auto_report_group_ids :=
          match arg? with
          | some l => some l
          | none => r.auto_report_group_ids
        auto_reporters :=
          match autoReporters? with
          | some s => some s
          | none => r.auto_reporters }

/-- The opening-brace character, written via its code point. -/
def lbrace : Char := Char.ofNat 123

/-- The closing-brace character, written via its code point. -/
def rbrace : Char := Char.ofNat 125

/-- Lower-case hexadecimal digit character for `n < 16`. -/
def hexDigitChar (n : Nat) : Char :=
  if n < 10 then Char.ofNat (48 + n) else Char.ofNat (87 + n)

/-- Inverse of `hexDigitChar`. -/
def unhexDigit (c : Char) : Option Nat :=
  if 48 ≤ c.toNat ∧ c.toNat ≤ 57 then some (c.toNat - 48)
  else if 97 ≤ c.toNat ∧ c.toNat ≤ 102 then some (c.toNat - 87)
  else none

/-- Four-hex-digit encoding of a code point below `0x10000`. -/
def hex4 (n : Nat) : List Char :=
  [hexDigitChar (n / 4096 % 16), hexDigitChar (n / 256 % 16),
   hexDigitChar (n / 16 % 16), hexDigitChar (n % 16)]

/-- Modelled from the spec: the credential blob is JSON
(`json.dumps` / `json.loads` of the Python standard library are outside
`src/`). JSON string escaping of one character: quote and backslash get a
backslash escape, control characters a `\uXXXX` escape; other characters
are kept raw (real `json.dumps` additionally `\u`-escapes non-ASCII
characters, which parses back identically, so the serialize/parse pair is
unaffected). -/
def escChar (c : Char) : List Char :=
  if c = '"' then ['\\', '"']
  else if c = '\\' then ['\\', '\\']
  else if c.toNat < 32 then '\\' :: 'u' :: hex4 c.toNat
  else [c]

/-- JSON string escaping of a character sequence. -/
def escapeChars : List Char → List Char
  | [] => []
  | c :: r => escChar c ++ escapeChars r

/-- JSON string body parser: consumes characters up to the closing quote,
decoding `\"`, `\\` and `\uXXXX` escapes; returns the decoded characters
and the rest of the input. -/
def parseJStr : List Char → Option (List Char × List Char)
  | [] => none
  | c :: rest =>
    if c = '"' then some ([], rest)
    else if c = '\\' then
      match rest with
      | [] => none
      | e :: r2 =>
        if e = '"' then (parseJStr r2).map (fun p => ('"' :: p.1, p.2))
        else if e = '\\' then (parseJStr r2).map (fun p => ('\\' :: p.1, p.2))
        else if e = 'u' then
          match r2 with
          | h1 :: h2 :: h3 :: h4 :: r3 =>
            match unhexDigit h1, unhexDigit h2, unhexDigit h3, unhexDigit h4 with
            | some d1, some d2, some d3, some d4 =>
              (parseJStr r3).map
                (fun p => (Char.ofNat (d1 * 4096 + d2 * 256 + d3 * 16 + d4) :: p.1, p.2))
            | _, _, _, _ => none
          | _ => none
        else none
    else (parseJStr rest).map (fun p => (c :: p.1, p.2))

/-- One serialized key/value pair in Python `json.dumps` object format
(`"key": "value"`), continued by `t`. -/
def dumpPairT (k v : String) (t : List Char) : List Char :=
  '"' :: (escapeChars k.data ++ ('"' :: ':' :: ' ' :: '"' :: (escapeChars v.data ++ ('"' :: t))))

/-- Serialization of the remaining pairs of an object: either the closing
brace or a comma-space separator followed by the next pair. -/
def dumpTail : List (String × String) → List Char
  | [] => [rbrace]
  | (k, v) :: ps => ',' :: ' ' :: dumpPairT k v (dumpTail ps)

/-- Serialization of the contents of an object after the opening brace. -/
def dumpBody : List (String × String) → List Char
  | [] => [rbrace]
  | (k, v) :: ps => dumpPairT k v (dumpTail ps)

/-- Modelled from the spec: `json.dumps` of a flat string-valued credential
mapping in Python default format, e.g. a string beginning with an opening
brace, `"k": "v"` pairs separated by comma-space, and a closing brace. -/
def jsonDumps (m : List (String × String)) : String :=
  String.mk (lbrace :: dumpBody m)

/-- Parser for a non-empty sequence of `"k": "v"` pairs followed by the
closing brace; `fuel` bounds the recursion by the input length. -/
def parsePairs (fuel : Nat) (input : List Char) : Option (List (String × String) × List Char) :=
  match fuel with
  | 0 => none
  | Nat.succ f =>
    match input with
    | [] => none
    | c :: rest =>
      if c = '"' then
        match parseJStr rest with
        | none => none
        | some (k, r1) =>
          match r1 with
          | c1 :: c2 :: c3 :: r2 =>
            if c1 = ':' ∧ c2 = ' ' ∧ c3 = '"' then
              match parseJStr r2 with
              | none => none
              | some (v, r3) =>
                match r3 with
                | [] => none
                | c4 :: r4 =>
                  if c4 = rbrace then some ([(String.mk k, String.mk v)], r4)
                  else if c4 = ',' then
                    match r4 with
                    | [] => none
                    | c5 :: r5 =>
                      if c5 = ' ' then
                        match parsePairs f r5 with
                        | some (ps, r6) => some ((String.mk k, String.mk v) :: ps, r6)
                        | none => none
                      else none
                  else none
            else none
          | _ => none
      else none

/-- Modelled from the spec: `json.loads` on the credential blob, accepting
the object format emitted by `jsonDumps`; any other input models the raised
parse error. -/
def jsonLoads (s : String) : Except PyErr (List (String × String)) :=
  match s.data with
  | [] => Except.error (PyErr.valueError "Expecting value")
  | c :: rest =>
    if c = lbrace then
      if rest = [rbrace] then Except.ok []
      else
        match parsePairs rest.length rest with
        | some (ps, []) => Except.ok ps
        | _ => Except.error (PyErr.valueError "Expecting value")
    else Except.error (PyErr.valueError "Expecting value")

/-- The `_altdata` column value as seen in a Python session: unset (`None`),
a string, or a mapping object. -/
inductive AltStore
  | noneV
  | strV (s : String)
  | objV (m : List (String × String))
deriving DecidableEq

/-- The `altdata` property getter of `TNSRobot` (models/tns.py lines 54-59):
the empty mapping when `_altdata` is `None`, otherwise
`json.loads(self._altdata)` — which raises a `TypeError` when the stored
value is a mapping object rather than a string. -/
def altdataGet : AltStore → Except PyErr (List (String × String))
  | AltStore.noneV => Except.ok []
  | AltStore.strV s => jsonLoads s
  | AltStore.objV _ =>
    Except.error (PyErr.typeError "the JSON object must be str, bytes or bytearray, not dict")

/-- The `altdata` property setter (models/tns.py lines 61-63):
`self._altdata = value`, storing the given value raw. -/
def altdataSet (_old : AltStore) (value : AltStore) : AltStore := value

/-- Modelled from the spec: the AES engine of the `EncryptedType` column
(sqlalchemy_utils, outside `src/`), an invertible keyed transform on the
serialized text. -/
def encryptBlob (key s : String) : String := String.mk (key.data ++ s.data)

/-- Modelled from the spec: inverse of `encryptBlob`. -/
def decryptBlob (key c : String) : String := String.mk (c.data.drop key.data.length)

/-- A JSON string literal (used by the column's `JSONType` serializer when
the stored Python value is a string). -/
def jstrOf (s : String) : String := String.mk ('"' :: (escapeChars s.data ++ ['"']))

/-- Modelled from the spec: the `JSONType` bind step of the encrypted
column — JSON-serialize the stored Python value (`None` maps to SQL NULL). -/
def dumpJsonValue : AltStore → Option String
  | AltStore.noneV => none
  | AltStore.strV s => some (jstrOf s)
  | AltStore.objV m => some (jsonDumps m)

/-- Modelled from the spec: the `JSONType` result step — JSON-parse the
decrypted text back into a Python value. -/
def parseJsonValue (s : String) : Option AltStore :=
  match s.data with
  | [] => none
  | c :: rest =>
    if c = '"' then
      match parseJStr rest with
      | some (cs, []) => some (AltStore.strV (String.mk cs))
      | _ => none
    else
      match jsonLoads s with
      | Except.ok m => some (AltStore.objV m)
      | Except.error _ => none

/-- Modelled from the spec: one persist/load cycle of the `_altdata` column
(encrypt-on-write, decrypt-on-read). -/
def dbRoundTrip (key : String) (v : AltStore) : Option AltStore :=
  match dumpJsonValue v with
  | none => some AltStore.noneV
  | some s => parseJsonValue (decryptBlob key (encryptBlob key s))

/-- A fully successful single-retrieval environment: object, robot and
credentials present, name resolved, object fetch returns 200 with an empty
reply payload. -/
def envOK : TnsEnv :=
  { objFound := true, robotFound := true, altdata := [("api_key", "k")],
    iauName := some "2024abc", statuses := fun _ => 200, reply := none,
    includePhotometry := false, includeSpectra := false }

/-- A single-retrieval environment whose name resolution fails (the object
is not yet posted to TNS). -/
def envNoName : TnsEnv := { envOK with iauName := none }

/-- A single-retrieval environment whose object fetch returns HTTP 500. -/
def env500 : TnsEnv := { envOK with statuses := fun _ => 500 }

/-- Statuses for an initial request and four retries answered 429, with the
fifth retry answered 200. -/
def stFive : Nat → Nat := fun i => if i < 5 then 429 else 200

/-- A single-retrieval environment rate-limited on the first five requests. -/
def envRate : TnsEnv := { envOK with statuses := stFive }

/-- A bulk environment with one source whose inner retrieval succeeds. -/
def bulkOne : BulkEnv :=
  { robotFound := true, altdata := [("api_key", "k")],
    sources := [{ objExists := true, postSourceFails := false, inner := envOK }] }

/-- A bulk environment whose first source succeeds and whose second source
needs creation but `post_source` raises. -/
def bulkTwo : BulkEnv :=
  { robotFound := true, altdata := [("api_key", "k")],
    sources := [{ objExists := true, postSourceFails := false, inner := envOK },
                { objExists := false, postSourceFails := true, inner := envOK }] }

/-- A bulk environment that fails before its loop (no search results). -/
def bulkEmpty : BulkEnv :=
  { robotFound := true, altdata := [("api_key", "k")], sources := [] }

/-- A fully valid spectrum-push environment (object redshift set to 1). -/
def specEnvOK : SpecEnv :=
  { tnsrobotIDGiven := true, robotFound := true, altdata := [("api_key", "k")],
    spectrumFound := true, iauName := some "2024abc", objRedshift := some 1,
    spectrumType := "object", specHeader := none, wav := [1, 2], flux := [3, 4],
    errs := none, uploadStatus := 200, uploadContent := "", reportStatus := 200,
    reportContent := "", reportId := 99 }

/-- A credential mapping that is non-empty but has no `api_key` entry. -/
def altNoKey : List (String × String) := [("user", "x")]
/-- A single-retrieval environment rate-limited on every request. -/
def env429 : TnsEnv := { envOK with statuses := fun _ => 429 }

/-- An update request supplying `auto_report_group_ids` as the empty list
and nothing else. -/
def putEmptyList : PutData :=
  { bot_id := none, bot_name := none, source_group_id := none,
    auto_report_group_ids := some (ArgVal.listA []), auto_reporters := none }

/-- An update request supplying no field at all. -/
def putNothing : PutData :=
  { bot_id := none, bot_name := none, source_group_id := none,
    auto_report_group_ids := none, auto_reporters := none }

/-- A robot row with a non-empty reporter attribution. -/
def robot0 : RobotState :=
  { bot_id := 1, bot_name := "bot", source_group_id := 2,
    auto_report_group_ids := some [GrpElem.intE 1], auto_reporters := some "Alice" }

/-- C1: the claim says an owning invocation of `tns_retrieval` always closes
and releases its session and that a shared batch session is not closed by
the inner call, and that `tns_bulk_retrieval` always closes its session.
The code's `finally` in `tns_retrieval` tests `parent_session is not None`,
the exact inversion: evaluating the model shows that an owning call (on
success and on failure alike) never closes its session, while an inner call
on a shared session does close it; only the bulk function closes its own
session on both outcomes. -/
theorem C1_session_lifecycle_code_eval :
    (Effect.sessionClose ∉ tns_retrieval envOK false
      ∧ Effect.sessionRemove ∉ tns_retrieval envOK false)
  ∧ (Effect.sessionClose ∉ tns_retrieval envNoName false)
  ∧ (Effect.sessionClose ∈ tns_retrieval envOK true
      ∧ Effect.sessionRemove ∈ tns_retrieval envOK true)
  ∧ (Effect.sessionClose ∈ tns_bulk_retrieval bulkOne
      ∧ Effect.sessionClose ∈ tns_bulk_retrieval bulkEmpty) := by
  decide

/-- C2 counterexample: a successful bulk run over a single source commits
twice (once inside the inner `tns_retrieval` on the shared session, once at
the end of the batch), refuting "committed exactly once, at the end of the
whole batch"; and a batch whose second source raises in `post_source` still
has the first source's work committed (one commit before the exception),
refuting "no partial commit". -/
theorem C2_commit_once_counterexample :
    List.count Effect.commit (tns_bulk_retrieval bulkOne) = 2
  ∧ (List.count Effect.commit (tns_bulk_retrieval bulkTwo) = 1
      ∧ Effect.logError (PyErr.externalError "post_source") ∈ tns_bulk_retrieval bulkTwo) := by
  decide

/-- C3 counterexample: with the initial request and retries 1-4 answered 429
and the fifth retry answered 200, the loop exits with `count == count_limit`
and the code still raises the rate-exceeded error, refuting "a retry whose
response is not 429 exits the retry loop and is processed as a normal
(non-rate-exceeded) outcome". -/
theorem C3_rate_limit_counterexample :
    tnsRetryCount stFive 0 6 = 5
  ∧ stFive 5 = 200
  ∧ Effect.logError (PyErr.valueError "TNS request failed: request rate exceeded.")
      ∈ tns_retrieval envRate false := by
  decide

/-- C4: for a robot whose decrypted credentials are non-empty but lack
`api_key`, the three trigger handlers fail with the dedicated missing-key
error and launch no task, but `SpectrumTNSHandler.post` — which never checks
`'api_key' in altdata` — raises an uncaught `KeyError` when evaluating
`altdata['api_key']` instead of failing with the missing-TNS-API-key
condition (still before any network call, as the empty effect list shows). -/
theorem C4_missing_api_key_code_eval :
    bulkHandlerPost { groupIds := GroupIdsVal.listV [1], startDateRaises := false,
                      tnsrobotID := some 1, robotFound := true, altdata := altNoKey }
      = ([], Except.error (HErr.handlerError "Missing TNS API key."))
  ∧ objTnsGet { tnsrobotID := some 1, objFound := true, robotFound := true, altdata := altNoKey }
      = ([], Except.error (HErr.handlerError "Missing TNS API key."))
  ∧ objTnsPost { tnsrobotID := some 1, reporters := RepVal.strR "Alice", archival := false,
                 archivalComment := "", objFound := true, robotFound := true, altdata := altNoKey }
      = ([], Except.error (HErr.handlerError "Missing TNS API key."))
  ∧ spectrumTnsPost { specEnvOK with altdata := altNoKey }
      = ([], Except.error (HErr.pyError (PyErr.keyError "api_key"))) := by
  decide

/-- C5: for a spectrum whose object has no redshift, the local `redshift`
variable is never bound, so `if redshift is not None` raises an
`UnboundLocalError` after the file upload and the classification report is
never submitted — instead of the claimed redshift-free report and returned
report id; with a truthy redshift the same pipeline succeeds end to end. -/
theorem C5_redshift_unbound_code_eval :
    spectrumTnsPost { specEnvOK with objRedshift := none }
      = ([SpecEffect.resolveName, SpecEffect.fileWrite, SpecEffect.uploadFile],
         Except.error (HErr.pyError (PyErr.unboundLocalError "redshift")))
  ∧ SpecEffect.bulkReport ∉ (spectrumTnsPost { specEnvOK with objRedshift := none }).1
  ∧ spectrumTnsPost specEnvOK
      = ([SpecEffect.resolveName, SpecEffect.fileWrite, SpecEffect.uploadFile, SpecEffect.bulkReport],
         Except.ok { tns_id := 99,
                     report := { name := "2024abc", spectypeid := 1,
                                 exptime := none, redshift := some 1 } }) := by
  decide

/-- C6 counterexample: an object fetch answered HTTP 500 (non-200, non-429)
logs the failure but the refresh-source notification is still broadcast
(and the session still committed), refuting "stops that object's processing
without broadcasting the notification". -/
theorem C6_broadcast_counterexample :
    Effect.flowPushRefreshSource ∈ tns_retrieval env500 false
  ∧ Effect.logFetchFail ∈ tns_retrieval env500 false
  ∧ Effect.logSuccess ∉ tns_retrieval env500 false := by
  decide

/-- C8 counterexample: for `groupIds = "1,a"` (a comma-separated string with
a non-numeric element), the list comprehension `int(x)` raises an uncaught
`ValueError` — the handler does not return its validation error — though no
background task is launched. -/
theorem C8_groupids_counterexample :
    bulkHandlerPost { groupIds := GroupIdsVal.strV "1,a", startDateRaises := false,
                      tnsrobotID := some 1, robotFound := true, altdata := [("api_key", "k")] }
      = ([], Except.error (HErr.pyError (PyErr.valueError "invalid literal for int() with base 10"))) := by
  decide

/-- C9 counterexample: storing the mapping object itself through the
`altdata` setter makes the accessor's `json.loads` raise a `TypeError`
rather than return that mapping, refuting the set-then-get round trip as
claimed. -/
theorem C9_altdata_counterexample :
    altdataGet (altdataSet AltStore.noneV (AltStore.objV [("api_key", "abc")]))
      = Except.error (PyErr.typeError "the JSON object must be str, bytes or bytearray, not dict") := by
  rfl

lemma tnsRetryCount_eq (st : Nat → Nat) :
    tnsRetryCount st 0 6 =
      if st 0 ≠ 429 then 0 else if st 1 ≠ 429 then 1 else if st 2 ≠ 429 then 2
      else if st 3 ≠ 429 then 3 else if st 4 ≠ 429 then 4 else 5 := by
  have e1 : tnsRetryCount st 0 6 = if st 0 = 429 ∧ 0 < 5 then tnsRetryCount st 1 5 else 0 := rfl
  have e2 : tnsRetryCount st 1 5 = if st 1 = 429 ∧ 1 < 5 then tnsRetryCount st 2 4 else 1 := rfl
  have e3 : tnsRetryCount st 2 4 = if st 2 = 429 ∧ 2 < 5 then tnsRetryCount st 3 3 else 2 := rfl
  have e4 : tnsRetryCount st 3 3 = if st 3 = 429 ∧ 3 < 5 then tnsRetryCount st 4 2 else 3 := rfl
  have e5 : tnsRetryCount st 4 2 = if st 4 = 429 ∧ 4 < 5 then tnsRetryCount st 5 1 else 4 := rfl
  have e6 : tnsRetryCount st 5 1 = if st 5 = 429 ∧ 5 < 5 then tnsRetryCount st 6 0 else 5 := rfl
  rw [e1, e2, e3, e4, e5, e6]
  split_ifs <;> omega

lemma tnsRetryCount_le5 (st : Nat → Nat) : tnsRetryCount st 0 6 ≤ 5 := by
  rw [tnsRetryCount_eq]; split_ifs <;> omega

lemma tnsRetryCount_lt_ne (st : Nat → Nat) (h : tnsRetryCount st 0 6 < 5) :
    st (tnsRetryCount st 0 6) ≠ 429 := by
  rw [tnsRetryCount_eq] at h ⊢
  split_ifs at h ⊢ <;> omega

lemma tnsRetryCount_all429 (st : Nat → Nat) (h : ∀ i, i < 5 → st i = 429) :
    tnsRetryCount st 0 6 = 5 := by
  have h0 := h 0 (by omega)
  have h1 := h 1 (by omega)
  have h2 := h 2 (by omega)
  have h3 := h 3 (by omega)
  have h4 := h 4 (by omega)
  rw [tnsRetryCount_eq]; split_ifs <;> omega

lemma retryEffects_mem {x : Effect} {r : Nat} (hx : x ∈ retryEffects r) :
    x = Effect.logRateLimited ∨ x = Effect.sleep 30 ∨ x = Effect.postObject := by
  induction r with
  | zero => simp [retryEffects] at hx
  | succ n ih =>
    simp only [retryEffects, List.mem_cons] at hx
    rcases hx with h | h | h | h
    · tauto
    · tauto
    · tauto
    · exact ih h

lemma retryEffects_count_post (r : Nat) :
    (retryEffects r).count Effect.postObject = r := by
  induction r with
  | zero => rfl
  | succ n ih => simp [retryEffects, List.count_cons, ih]

lemma retryEffects_count_sleep (r : Nat) :
    (retryEffects r).count (Effect.sleep 30) = r := by
  induction r with
  | zero => rfl
  | succ n ih => simp [retryEffects, List.count_cons, ih]

lemma photLoop_mem {x : Effect} {l : List Bool} (h : x ∈ photLoop l) :
    x = Effect.addPhotometry ∨ x = Effect.logPhotFail := by
  induction l with
  | nil => simp [photLoop] at h
  | cons b r ih =>
    cases b <;> simp only [photLoop, List.mem_cons] at h <;> rcases h with h | h
    · tauto
    · exact ih h
    · tauto
    · exact ih h

lemma specLoop_mem {x : Effect} {l : List SpecRec} (h : x ∈ (specLoop l).1) :
    x = Effect.logSpecReadFail ∨ x = Effect.postSpectrum := by
  induction l with
  | nil => simp [specLoop] at h
  | cons b r ih =>
    cases b <;> simp only [specLoop, List.mem_cons] at h
    · rcases h with h | h
      · tauto
      · exact ih h
    · simp at h
    · rcases h with h | h
      · tauto
      · exact ih h

lemma photPart_mem {x : Effect} {inc : Bool} {ph : Option (List Bool)}
    (h : x ∈ photPart inc ph) :
    x = Effect.addPhotometry ∨ x = Effect.logPhotFail ∨ x = Effect.logPhotSummary := by
  cases inc <;> cases ph <;> simp [photPart] at h
  rcases h with h | h
  · rcases photLoop_mem h with h | h <;> tauto
  · exact Or.inr (Or.inr h.2)

lemma specPart_mem {x : Effect} {inc : Bool} {sp : Option (List SpecRec)}
    (h : x ∈ (specPart inc sp).1) :
    x = Effect.logSpecReadFail ∨ x = Effect.postSpectrum := by
  cases inc <;> cases sp <;> simp [specPart] at h
  exact specLoop_mem h

lemma replyEffects_mem {x : Effect} {e : TnsEnv} {sd : SourceData}
    (h : x ∈ (replyEffects e sd).1) :
    x = Effect.setTnsInfo ∨ x = Effect.addPhotometry ∨ x = Effect.logPhotFail
      ∨ x = Effect.logPhotSummary ∨ x = Effect.logSpecReadFail ∨ x = Effect.postSpectrum := by
  replace h : x ∈ Effect.setTnsInfo
      :: (photPart e.includePhotometry sd.photometry
          ++ (specPart e.includeSpectra sd.spectra).1) := h
  simp only [List.mem_cons, List.mem_append] at h
  rcases h with h | h | h
  · tauto
  · rcases photPart_mem h with h | h | h <;> tauto
  · rcases specPart_mem h with h | h <;> tauto

lemma specLoop_err (l : List SpecRec) :
    (specLoop l).2 = none ∨ (specLoop l).2 = some (PyErr.externalError "post_spectrum") := by
  induction l with
  | nil => simp [specLoop]
  | cons b r ih => cases b <;> simp [specLoop] <;> exact ih

lemma specPart_err (inc : Bool) (sp : Option (List SpecRec)) :
    (specPart inc sp).2 = none ∨ (specPart inc sp).2 = some (PyErr.externalError "post_spectrum") := by
  cases inc <;> cases sp <;> simp [specPart]
  exact specLoop_err _

lemma tnsBody_shape (e : TnsEnv) (ho : e.objFound = true) (hr : e.robotFound = true)
    (ha : e.altdata ≠ []) (hk : hasKey e.altdata "api_key" = true) {nm : String}
    (hn : e.iauName = some nm) :
    ∃ suffix err,
      tnsBody e = ([Effect.resolveName, Effect.setTnsName nm, Effect.postObject]
          ++ retryEffects (tnsRetryCount e.statuses 0 6) ++ suffix, err)
      ∧ (∀ x ∈ suffix,
           x = Effect.setTnsInfo ∨ x = Effect.addPhotometry ∨ x = Effect.logPhotFail
             ∨ x = Effect.logPhotSummary ∨ x = Effect.logSpecReadFail ∨ x = Effect.postSpectrum
             ∨ x = Effect.logSuccess ∨ x = Effect.logFetchFail ∨ x = Effect.commit
             ∨ x = Effect.flowPushRefreshSource)
      ∧ (err = some (PyErr.valueError "TNS request failed: request rate exceeded.")
           ↔ tnsRetryCount e.statuses 0 6 = 5)
      ∧ (e.statuses (tnsRetryCount e.statuses 0 6) ≠ 200 → tnsRetryCount e.statuses 0 6 ≠ 5 →
           suffix = [Effect.logFetchFail, Effect.commit, Effect.flowPushRefreshSource]
           ∧ err = none) := by
  unfold tnsBody
  rw [hn]
  simp only [ho, hr, ha, hk, not_true, if_false, if_neg (by simp : ¬ False), Bool.not_true]
  by_cases h5 : tnsRetryCount e.statuses 0 6 = 5
  · refine ⟨[], some (PyErr.valueError "TNS request failed: request rate exceeded."),
      by simp [h5], by simp, by simp [h5], fun _ hne => absurd h5 hne⟩
  · by_cases h200 : e.statuses (tnsRetryCount e.statuses 0 6) = 200
    · cases hrep : e.reply with
      | none =>
        refine ⟨[Effect.logSuccess, Effect.commit, Effect.flowPushRefreshSource], none,
          by simp [h5, h200, hrep], ?_, by simp [h5], fun hne _ => absurd h200 hne⟩
        intro x hx
        simp only [List.mem_cons, List.not_mem_nil, or_false] at hx
        rcases hx with h | h | h <;> tauto
      | some sd =>
        rcases specPart_err e.includeSpectra sd.spectra with herr | herr
        · refine ⟨(replyEffects e sd).1 ++ [Effect.logSuccess, Effect.commit, Effect.flowPushRefreshSource],
            none, ?_, ?_, by simp [h5], fun hne _ => absurd h200 hne⟩
          · simp [h5, h200, hrep, replyEffects, herr, List.append_assoc]
          · intro x hx
            simp only [List.mem_append, List.mem_cons, List.not_mem_nil, or_false] at hx
            rcases hx with h | h | h | h
            · rcases replyEffects_mem h with h | h | h | h | h | h <;> tauto
            · tauto
            · tauto
            · tauto
        · refine ⟨(replyEffects e sd).1, some (PyErr.externalError "post_spectrum"),
            ?_, ?_, by simp [h5], fun hne _ => absurd h200 hne⟩
          · simp [h5, h200, hrep, replyEffects, herr, List.append_assoc]
          · intro x hx
            rcases replyEffects_mem hx with h | h | h | h | h | h <;> tauto
    · refine ⟨[Effect.logFetchFail, Effect.commit, Effect.flowPushRefreshSource], none,
        by simp [h5, h200], ?_, by simp [h5], fun _ _ => ⟨rfl, rfl⟩⟩
      intro x hx
      simp only [List.mem_cons, List.not_mem_nil, or_false] at hx
      rcases hx with h | h | h <;> tauto

lemma count_suffix_zero {suffix : List Effect}
    (hmem : ∀ x ∈ suffix,
      x = Effect.setTnsInfo ∨ x = Effect.addPhotometry ∨ x = Effect.logPhotFail
        ∨ x = Effect.logPhotSummary ∨ x = Effect.logSpecReadFail ∨ x = Effect.postSpectrum
        ∨ x = Effect.logSuccess ∨ x = Effect.logFetchFail ∨ x = Effect.commit
        ∨ x = Effect.flowPushRefreshSource) :
    Effect.postObject ∉ suffix ∧ Effect.sleep 30 ∉ suffix
      ∧ ∀ y : PyErr, Effect.logError y ∉ suffix := by
  refine ⟨fun hx => ?_, fun hx => ?_, fun y hx => ?_⟩ <;>
    rcases hmem _ hx with h | h | h | h | h | h | h | h | h | h <;> simp at h

lemma retry_no_logError {y : PyErr} {r : Nat} : Effect.logError y ∉ retryEffects r := by
  intro hx
  rcases retryEffects_mem hx with h | h | h <;> simp at h

/-- C3 amended: on 429 the call sleeps 30 seconds and retries, issuing at
most 5 retries; five consecutive 429 responses yield exactly 5 retries
(6 requests in total, no sixth retry) and the distinguishable rate-exceeded
error; a retry answered with a non-429 status exits the loop, and is
processed as a normal (non-rate-exceeded) outcome only when fewer than five
retries were issued — when the fifth retry itself is answered non-429 the
call still fails with the rate-exceeded error, because the loop-exit check
compares the retry count, not the final status. -/
theorem C3_rate_limit_amended (e : TnsEnv) (ps : Bool)
    (ho : e.objFound = true) (hr : e.robotFound = true) (ha : e.altdata ≠ [])
    (hk : hasKey e.altdata "api_key" = true) (nm : String) (hn : e.iauName = some nm) :
    tnsRetryCount e.statuses 0 6 ≤ 5
  ∧ (tns_retrieval e ps).count Effect.postObject = tnsRetryCount e.statuses 0 6 + 1
  ∧ (tns_retrieval e ps).count (Effect.sleep 30) = tnsRetryCount e.statuses 0 6
  ∧ ((∀ i, i < 5 → e.statuses i = 429) →
       tnsRetryCount e.statuses 0 6 = 5
       ∧ Effect.logError (PyErr.valueError "TNS request failed: request rate exceeded.")
           ∈ tns_retrieval e ps
       ∧ (tns_retrieval e ps).count Effect.postObject = 6)
  ∧ (tnsRetryCount e.statuses 0 6 < 5 →
       e.statuses (tnsRetryCount e.statuses 0 6) ≠ 429
       ∧ Effect.logError (PyErr.valueError "TNS request failed: request rate exceeded.")
           ∉ tns_retrieval e ps)
  ∧ (tnsRetryCount e.statuses 0 6 = 5 →
       Effect.logError (PyErr.valueError "TNS request failed: request rate exceeded.")
           ∈ tns_retrieval e ps) := by
  obtain ⟨suffix, err, heq, hmem, hiff, _⟩ := tnsBody_shape e ho hr ha hk hn
  obtain ⟨hsp, hss, hsl⟩ := count_suffix_zero hmem
  have htrace : tns_retrieval e ps =
      (if ps then [Effect.useParentSession] else [Effect.acquireOwnSession])
      ++ ([Effect.resolveName, Effect.setTnsName nm, Effect.postObject]
          ++ retryEffects (tnsRetryCount e.statuses 0 6) ++ suffix)
      ++ logCaught err
      ++ (if ps then [Effect.sessionClose, Effect.sessionRemove] else []) := by
    unfold tns_retrieval
    rw [heq]
  have hcount_post : (tns_retrieval e ps).count Effect.postObject
      = tnsRetryCount e.statuses 0 6 + 1 := by
    rw [htrace]
    cases ps <;> cases err <;>
      simp [List.count_append, List.count_cons, logCaught, retryEffects_count_post,
        List.count_eq_zero.mpr hsp]
  have hcount_sleep : (tns_retrieval e ps).count (Effect.sleep 30)
      = tnsRetryCount e.statuses 0 6 := by
    rw [htrace]
    cases ps <;> cases err <;>
      simp [List.count_append, List.count_cons, logCaught, retryEffects_count_sleep,
        List.count_eq_zero.mpr hss]
  have hlog : ∀ y : PyErr, Effect.logError y ∈ tns_retrieval e ps ↔ err = some y := by
    intro y
    rw [htrace]
    cases ps <;> cases err <;>
      simp [List.mem_append, logCaught, retry_no_logError, hsl y, eq_comm]
  refine ⟨tnsRetryCount_le5 _, hcount_post, hcount_sleep, ?_, ?_, ?_⟩
  · intro hall
    have h5 := tnsRetryCount_all429 _ hall
    exact ⟨h5, (hlog _).mpr (hiff.mpr h5), by rw [hcount_post, h5]⟩
  · intro hlt
    refine ⟨tnsRetryCount_lt_ne _ hlt, fun hx => ?_⟩
    have := hiff.mp ((hlog _).mp hx)
    omega
  · intro h5
    exact (hlog _).mpr (hiff.mpr h5)

/-- C6 amended: when processing reaches the object-fetch response and the
status is neither 200 nor a fifth-retry rate-limit exhaustion, the failure
is logged and the photometry/spectra processing of that object is skipped,
but the session is still committed and the refresh-source notification is
still broadcast — the broadcast is not restricted to successful retrievals. -/
theorem C6_broadcast_amended (e : TnsEnv) (ps : Bool)
    (ho : e.objFound = true) (hr : e.robotFound = true) (ha : e.altdata ≠ [])
    (hk : hasKey e.altdata "api_key" = true) (nm : String) (hn : e.iauName = some nm)
    (h5 : tnsRetryCount e.statuses 0 6 ≠ 5)
    (h200 : e.statuses (tnsRetryCount e.statuses 0 6) ≠ 200) :
    Effect.flowPushRefreshSource ∈ tns_retrieval e ps
  ∧ Effect.logFetchFail ∈ tns_retrieval e ps
  ∧ Effect.commit ∈ tns_retrieval e ps
  ∧ Effect.addPhotometry ∉ tns_retrieval e ps
  ∧ Effect.postSpectrum ∉ tns_retrieval e ps
  ∧ Effect.logSuccess ∉ tns_retrieval e ps := by
  obtain ⟨suffix, err, heq, hmem, hiff, hfetch⟩ := tnsBody_shape e ho hr ha hk hn
  obtain ⟨hsfx, herrn⟩ := hfetch h200 h5
  subst hsfx; subst herrn
  have htrace : tns_retrieval e ps =
      (if ps then [Effect.useParentSession] else [Effect.acquireOwnSession])
      ++ ([Effect.resolveName, Effect.setTnsName nm, Effect.postObject]
          ++ retryEffects (tnsRetryCount e.statuses 0 6)
          ++ [Effect.logFetchFail, Effect.commit, Effect.flowPushRefreshSource])
      ++ logCaught none
      ++ (if ps then [Effect.sessionClose, Effect.sessionRemove] else []) := by
    unfold tns_retrieval
    rw [heq]
  have hadd : Effect.addPhotometry ∉ retryEffects (tnsRetryCount e.statuses 0 6) := by
    intro hx; rcases retryEffects_mem hx with h | h | h <;> simp at h
  have hpsm : Effect.postSpectrum ∉ retryEffects (tnsRetryCount e.statuses 0 6) := by
    intro hx; rcases retryEffects_mem hx with h | h | h <;> simp at h
  have hlsm : Effect.logSuccess ∉ retryEffects (tnsRetryCount e.statuses 0 6) := by
    intro hx; rcases retryEffects_mem hx with h | h | h <;> simp at h
  rw [htrace]
  cases ps <;> simp [logCaught, List.mem_append, hadd, hpsm, hlsm]

lemma tnsBulkLoop_ok (l : List BulkSource)
    (h : ∀ s ∈ l, (s.objExists = true ∨ s.postSourceFails = false)
      ∧ List.count Effect.commit (tns_retrieval s.inner true) = 1) :
    (tnsBulkLoop l).2 = none
      ∧ List.count Effect.commit (tnsBulkLoop l).1 = l.length := by
  induction l with
  | nil => simp [tnsBulkLoop]
  | cons s rest ih =>
    obtain ⟨hde, hcnt⟩ := h s (List.mem_cons_self _ _)
    have hrest := ih (fun t ht => h t (List.mem_cons_of_mem _ ht))
    have hguard : ¬ (¬ s.objExists ∧ s.postSourceFails) := by
      rcases hde with h1 | h1 <;> simp [h1]
    simp only [tnsBulkLoop, if_neg hguard]
    refine ⟨hrest.1, ?_⟩
    by_cases hobj : s.objExists = true <;>
      simp [hobj, List.count_append, List.count_cons, hcnt, hrest.2] <;> omega

lemma tnsBulkLoop_fail (good : List BulkSource) (b : BulkSource) (rest : List BulkSource)
    (h : ∀ s ∈ good, (s.objExists = true ∨ s.postSourceFails = false)
      ∧ List.count Effect.commit (tns_retrieval s.inner true) = 1)
    (hb1 : b.objExists = false) (hb2 : b.postSourceFails = true) :
    (tnsBulkLoop (good ++ b :: rest)).2 = some (PyErr.externalError "post_source")
      ∧ List.count Effect.commit (tnsBulkLoop (good ++ b :: rest)).1 = good.length := by
  induction good with
  | nil => simp [tnsBulkLoop, hb1, hb2]
  | cons s g ih =>
    obtain ⟨hde, hcnt⟩ := h s (List.mem_cons_self _ _)
    have hrest := ih (fun t ht => h t (List.mem_cons_of_mem _ ht))
    have hguard : ¬ (¬ s.objExists ∧ s.postSourceFails) := by
      rcases hde with h1 | h1 <;> simp [h1]
    simp only [List.cons_append, tnsBulkLoop, if_neg hguard]
    refine ⟨hrest.1, ?_⟩
    by_cases hobj : s.objExists = true <;>
      simp [hobj, List.count_append, List.count_cons, hcnt, hrest.2] <;> omega

/-- C2 amended: a fully successful batch commits the shared session
`n + 1` times for `n` sources — once inside every inner per-object
retrieval plus the final batch commit — not exactly once; and when an
exception aborts the per-source loop, the work of the earlier sources has
already been committed by their inner retrievals (one commit per completed
source), so only work since the last inner commit is discarded. -/
theorem C2_commit_per_object_amended (e : BulkEnv)
    (hr : e.robotFound = true) (ha : e.altdata ≠ [])
    (hk : hasKey e.altdata "api_key" = true) :
    ((∀ s ∈ e.sources, (s.objExists = true ∨ s.postSourceFails = false)
        ∧ List.count Effect.commit (tns_retrieval s.inner true) = 1) →
      e.sources ≠ [] →
      List.count Effect.commit (tns_bulk_retrieval e) = e.sources.length + 1)
  ∧ (∀ good b rest, e.sources = good ++ b :: rest →
      (∀ s ∈ good, (s.objExists = true ∨ s.postSourceFails = false)
        ∧ List.count Effect.commit (tns_retrieval s.inner true) = 1) →
      b.objExists = false → b.postSourceFails = true →
      List.count Effect.commit (tns_bulk_retrieval e) = good.length
        ∧ Effect.logError (PyErr.externalError "post_source") ∈ tns_bulk_retrieval e) := by
  constructor
  · intro hall hne
    obtain ⟨hd, tl, hcons⟩ := List.exists_cons_of_ne_nil hne
    have hloop := tnsBulkLoop_ok e.sources hall
    rw [hcons] at hloop
    unfold tns_bulk_retrieval tnsBulkBody
    rw [hcons]
    simp [hr, ha, hk, hloop.1, hloop.2, logCaught, List.count_append, List.count_cons]
  · intro good b rest hsrc hgood hb1 hb2
    have hne : e.sources ≠ [] := by rw [hsrc]; cases good <;> simp
    obtain ⟨hd, tl, hcons⟩ := List.exists_cons_of_ne_nil hne
    have hsplit : hd :: tl = good ++ b :: rest := hcons.symm.trans hsrc
    have hloop := tnsBulkLoop_fail good b rest hgood hb1 hb2
    rw [← hsplit] at hloop
    unfold tns_bulk_retrieval tnsBulkBody
    rw [hcons]
    simp [hr, ha, hk, hloop.1, hloop.2, logCaught, List.count_append, List.count_cons]

lemma spectrumTnsPost_ok_spectypeid (e : SpecEnv) (es : List SpecEffect) (r : SpecOk)
    (h : spectrumTnsPost e = (es, Except.ok r)) :
    ∃ i, pyIndex e.spectrumType = some i ∧ r.report.spectypeid = i + 1 := by
  unfold spectrumTnsPost at h
  repeat' split at h
  all_goals try (simp at h)
  obtain ⟨-, hr2⟩ := h
  subst hr2
  exact ⟨_, by assumption, rfl⟩

lemma pyIndex_none_of_not_mem {x : String} (h : x ∉ spectypeList) : pyIndex x = none := by
  simp only [spectypeList, List.mem_cons, List.not_mem_nil, or_false, not_or] at h
  obtain ⟨h1, h2, h3, h4, h5⟩ := h
  simp [pyIndex, h1, h2, h3, h4, h5]

lemma spectrumTnsPost_invalid (e : SpecEnv) (hinv : pyIndex e.spectrumType = none) :
    (∃ er, (spectrumTnsPost e).2 = Except.error er)
      ∧ SpecEffect.uploadFile ∉ (spectrumTnsPost e).1 := by
  unfold spectrumTnsPost
  split_ifs <;> try exact ⟨⟨_, rfl⟩, by simp⟩
  all_goals cases hiau : e.iauName <;> simp [hiau, hinv]

/-- C7: in the spectrum classification push the `spectrumType` string maps
to the enumerated classification index — object to 1, host to 2, sky to 3,
arcs to 4, synthetic to 5 — and any other value makes the request fail
before any file upload is performed. -/
theorem C7_spectype_mapping (e : SpecEnv) :
    (∀ es r, spectrumTnsPost e = (es, Except.ok r) →
       (e.spectrumType = "object" → r.report.spectypeid = 1)
       ∧ (e.spectrumType = "host" → r.report.spectypeid = 2)
       ∧ (e.spectrumType = "sky" → r.report.spectypeid = 3)
       ∧ (e.spectrumType = "arcs" → r.report.spectypeid = 4)
       ∧ (e.spectrumType = "synthetic" → r.report.spectypeid = 5))
  ∧ (e.spectrumType ∉ spectypeList →
       (∃ er, (spectrumTnsPost e).2 = Except.error er)
       ∧ SpecEffect.uploadFile ∉ (spectrumTnsPost e).1) := by
  constructor
  · intro es r h
    obtain ⟨i, hidx, hid⟩ := spectrumTnsPost_ok_spectypeid e es r h
    refine ⟨?_, ?_, ?_, ?_, ?_⟩ <;> intro ht <;> rw [ht] at hidx <;>
      simp [pyIndex] at hidx <;> omega
  · intro hmem
    exact spectrumTnsPost_invalid e (pyIndex_none_of_not_mem hmem)

/-- C8 amended: a `groupIds` value that is neither a list nor a string gets
the handler's validation error and no background task; a comma-separated
string with a non-numeric element instead raises an uncaught integer-parse
exception — still before any task is launched, but the caller sees a
generic failure, not the handler's validation error. -/
theorem C8_groupids_amended (e : BulkHandlerEnv) :
    (e.groupIds = GroupIdsVal.otherV →
       bulkHandlerPost e = ([], Except.error (HErr.handlerError "group_ids type not understood")))
  ∧ (∀ s, e.groupIds = GroupIdsVal.strV s → mapIntAll (pySplit s ',') = none →
       bulkHandlerPost e
         = ([], Except.error (HErr.pyError (PyErr.valueError "invalid literal for int() with base 10")))) := by
  constructor
  · intro hother
    unfold bulkHandlerPost
    rw [hother]
  · intro s hstr hbad
    unfold bulkHandlerPost
    rw [hstr]
    simp [hbad]


lemma pySplitChars_ne_nil (sep : Char) (l : List Char) : pySplitChars sep l ≠ [] := by
  cases l with
  | nil => simp [pySplitChars]
  | cons c r =>
    simp only [pySplitChars]
    split_ifs
    · simp
    · split <;> simp

lemma pySplit_ne_nil (s : String) (sep : Char) : pySplit s sep ≠ [] := by
  unfold pySplit
  simp [pySplitChars_ne_nil]

lemma bindE_ok {a b : Type} {x : Except HErr a} {f : a → Except HErr b} {y : b}
    (h : bindE x f = Except.ok y) : ∃ v, x = Except.ok v ∧ f v = Except.ok y := by
  cases x with
  | error er => simp [bindE] at h
  | ok v => exact ⟨v, rfl, h⟩

/-- C10: whenever the update request supplies `auto_report_group_ids` as the
empty list, a successful update overwrites the robot's `auto_reporters`
with the empty string even when the request did not supply an
`auto_reporters` value; in every other successful update that does not
supply `auto_reporters`, the field is left unchanged. -/
theorem C10_auto_reporters_frame (d : PutData) (rf : Bool) (r r2 : RobotState) :
    (d.auto_report_group_ids = some (ArgVal.listA []) →
       tnsrobotPut d rf r = Except.ok r2 → r2.auto_reporters = some "")
  ∧ (d.auto_reporters = none →
       (∀ l, d.auto_report_group_ids = some (ArgVal.listA l) → l ≠ []) →
       tnsrobotPut d rf r = Except.ok r2 → r2.auto_reporters = r.auto_reporters) := by
  constructor
  · intro hempty h
    unfold tnsrobotPut at h
    obtain ⟨a1, h1, h⟩ := bindE_ok h
    obtain ⟨a2, h2, h⟩ := bindE_ok h
    obtain ⟨a3, h3, h⟩ := bindE_ok h
    obtain ⟨a4, h4, h⟩ := bindE_ok h
    obtain ⟨a5, h5, h⟩ := bindE_ok h
    rw [hempty] at h4
    have ha4 : a4 = some [] := by simpa [argStep] using h4.symm
    subst ha4
    simp only [effAutoReporters] at h
    split_ifs at h
    all_goals simp at h
    all_goals (subst h; rfl)
  · intro har hne h
    unfold tnsrobotPut at h
    obtain ⟨a1, h1, h⟩ := bindE_ok h
    obtain ⟨a2, h2, h⟩ := bindE_ok h
    obtain ⟨a3, h3, h⟩ := bindE_ok h
    obtain ⟨a4, h4, h⟩ := bindE_ok h
    obtain ⟨a5, h5, h⟩ := bindE_ok h
    have hrep : effAutoReporters a4 d.auto_reporters = none := by
      cases harg : d.auto_report_group_ids with
      | none =>
        rw [harg] at h4
        have : a4 = none := by simpa [argStep] using h4.symm
        subst this
        simp [effAutoReporters, har]
      | some av =>
        cases av with
        | otherA => rw [harg] at h4; simp [argStep] at h4
        | strA s =>
          rw [harg] at h4
          have ha4 : a4 = some ((pySplit s ',').map GrpElem.strE) := by
            simpa [argStep] using h4.symm
          obtain ⟨h0, t0, hsp⟩ := List.exists_cons_of_ne_nil (pySplit_ne_nil s ',')
          subst ha4
          rw [hsp]
          simp [effAutoReporters, har]
        | listA l =>
          rw [harg] at h4
          have ha4 : a4 = some l := by simpa [argStep] using h4.symm
          obtain ⟨h0, t0, hl2⟩ := List.exists_cons_of_ne_nil (hne l harg)
          subst ha4
          rw [hl2]
          simp [effAutoReporters, har]
    simp only [hrep] at h
    split_ifs at h
    all_goals simp at h
    all_goals (subst h; rfl)

lemma mk_data (s : String) : String.mk s.data = s := by cases s; rfl

lemma unhex_hex (n : Nat) (h : n < 16) : unhexDigit (hexDigitChar n) = some n := by
  interval_cases n <;> decide

lemma parseJStr_quote (r : List Char) : parseJStr ('"' :: r) = some ([], r) := by
  rw [parseJStr.eq_def]
  simp

lemma parseJStr_escQuote (r : List Char) :
    parseJStr ('\\' :: '"' :: r) = (parseJStr r).map (fun p => ('"' :: p.1, p.2)) := by
  rw [parseJStr.eq_def]
  simp

lemma parseJStr_escBack (r : List Char) :
    parseJStr ('\\' :: '\\' :: r) = (parseJStr r).map (fun p => ('\\' :: p.1, p.2)) := by
  rw [parseJStr.eq_def]
  simp

lemma parseJStr_escU (h1 h2 h3 h4 : Char) (r : List Char) :
    parseJStr ('\\' :: 'u' :: h1 :: h2 :: h3 :: h4 :: r)
      = (match unhexDigit h1, unhexDigit h2, unhexDigit h3, unhexDigit h4 with
         | some d1, some d2, some d3, some d4 =>
           (parseJStr r).map
             (fun p => (Char.ofNat (d1 * 4096 + d2 * 256 + d3 * 16 + d4) :: p.1, p.2))
         | _, _, _, _ => none) := by
  rw [parseJStr.eq_def]
  simp

lemma parseJStr_other {c : Char} (r : List Char) (hq : ¬ c = '"') (hb : ¬ c = '\\') :
    parseJStr (c :: r) = (parseJStr r).map (fun p => (c :: p.1, p.2)) := by
  rw [parseJStr.eq_def]
  simp only [if_neg hq, if_neg hb]

lemma parseJStr_escape (s : List Char) : ∀ r : List Char,
    parseJStr (escapeChars s ++ ('"' :: r)) = some (s, r) := by
  induction s with
  | nil => intro r; exact parseJStr_quote r
  | cons c s' ih =>
    intro r
    show parseJStr ((escChar c ++ escapeChars s') ++ ('"' :: r)) = _
    rw [List.append_assoc]
    by_cases hq : c = '"'
    · subst hq
      show parseJStr ('\\' :: '"' :: (escapeChars s' ++ ('"' :: r))) = _
      rw [parseJStr_escQuote, ih r]
      rfl
    · by_cases hb : c = '\\'
      · subst hb
        show parseJStr ('\\' :: '\\' :: (escapeChars s' ++ ('"' :: r))) = _
        rw [parseJStr_escBack, ih r]
        rfl
      · by_cases hc : c.toNat < 32
        · have hesc : escChar c = '\\' :: 'u' :: hex4 c.toNat := by
            simp [escChar, hq, hb, hc]
          rw [hesc]
          show parseJStr ('\\' :: 'u' ::
            (hexDigitChar (c.toNat / 4096 % 16) :: hexDigitChar (c.toNat / 256 % 16)
              :: hexDigitChar (c.toNat / 16 % 16) :: hexDigitChar (c.toNat % 16)
              :: (escapeChars s' ++ ('"' :: r)))) = _
          rw [parseJStr_escU]
          rw [unhex_hex _ (Nat.mod_lt _ (by omega)), unhex_hex _ (Nat.mod_lt _ (by omega)),
            unhex_hex _ (Nat.mod_lt _ (by omega)), unhex_hex _ (Nat.mod_lt _ (by omega))]
          have hN : (c.toNat / 4096 % 16) * 4096 + (c.toNat / 256 % 16) * 256
              + (c.toNat / 16 % 16) * 16 + c.toNat % 16 = c.toNat := by omega
          simp only []
          rw [hN, ih r, Char.ofNat_toNat]
          rfl
        · have hesc : escChar c = [c] := by simp [escChar, hq, hb, hc]
          rw [hesc]
          show parseJStr (c :: (escapeChars s' ++ ('"' :: r))) = _
          rw [parseJStr_other _ hq hb, ih r]
          rfl

lemma dumpPairT_length (k v : String) (t : List Char) :
    t.length + 6 ≤ (dumpPairT k v t).length := by
  simp [dumpPairT, List.length_append]
  omega

lemma dumpTail_length (ps : List (String × String)) : ps.length < (dumpTail ps).length := by
  induction ps with
  | nil => simp [dumpTail]
  | cons p rest ih =>
    obtain ⟨k, v⟩ := p
    have := dumpPairT_length k v (dumpTail rest)
    simp only [dumpTail, List.length_cons]
    omega

lemma dumpBody_length (k v : String) (ps : List (String × String)) :
    ps.length + 1 < (dumpBody ((k, v) :: ps)).length := by
  have h1 := dumpPairT_length k v (dumpTail ps)
  have h2 := dumpTail_length ps
  simp only [dumpBody]
  omega

lemma parsePairs_dumpBody (ps : List (String × String)) :
    ∀ (k v : String) (fuel : Nat), ps.length < fuel →
    parsePairs fuel (dumpBody ((k, v) :: ps)) = some ((k, v) :: ps, []) := by
  induction ps with
  | nil =>
    intro k v fuel hf
    cases fuel with
    | zero => omega
    | succ f =>
      show parsePairs (f + 1) (dumpPairT k v (dumpTail [])) = _
      rw [parsePairs.eq_def]
      simp only [dumpPairT, dumpTail]
      rw [parseJStr_escape]
      simp only []
      rw [parseJStr_escape]
      simp [mk_data]
  | cons p rest ih =>
    intro k v fuel hf
    obtain ⟨k2, v2⟩ := p
    cases fuel with
    | zero => simp at hf
    | succ f =>
      show parsePairs (f + 1) (dumpPairT k v (dumpTail ((k2, v2) :: rest))) = _
      rw [parsePairs.eq_def]
      simp only [dumpPairT, dumpTail]
      rw [parseJStr_escape]
      simp only []
      rw [parseJStr_escape]
      have hrec : parsePairs f (dumpBody ((k2, v2) :: rest)) = some ((k2, v2) :: rest, []) := by
        apply ih
        simp at hf
        omega
      simp only [dumpBody, dumpPairT] at hrec
      have hcr : (',' : Char) ≠ rbrace := by decide
      simp [mk_data, hrec, hcr]

lemma jsonLoads_dumps (m : List (String × String)) :
    jsonLoads (jsonDumps m) = Except.ok m := by
  cases m with
  | nil => decide
  | cons p ps =>
    obtain ⟨k, v⟩ := p
    have hne : dumpBody ((k, v) :: ps) ≠ [rbrace] := by
      simp only [dumpBody, dumpPairT]
      intro h
      injection h with h1 _
      exact absurd h1 (by decide)
    have hlen : ps.length < (dumpBody ((k, v) :: ps)).length := by
      have := dumpBody_length k v ps
      omega
    unfold jsonLoads jsonDumps
    simp only []
    rw [if_pos trivial, if_neg hne, parsePairs_dumpBody ps k v _ hlen]

lemma decrypt_encrypt (key s : String) : decryptBlob key (encryptBlob key s) = s := by
  unfold decryptBlob encryptBlob
  simp only [List.drop_left]

lemma parseJsonValue_jstr (s : String) :
    parseJsonValue (jstrOf s) = some (AltStore.strV s) := by
  unfold parseJsonValue jstrOf
  simp only []
  rw [if_pos trivial]
  have harr : escapeChars s.data ++ ['"'] = escapeChars s.data ++ ('"' :: []) := rfl
  rw [harr, parseJStr_escape]

/-- C9 amended: the credential accessor returns the empty mapping when no
blob is stored; and for every mapping, storing the mapping's JSON text
through the credential setter round-trips — both through the
encrypt-on-write / decrypt-on-read column cycle and through the accessor,
which parses the stored text back into the mapping. (Storing the mapping
object itself, by contrast, makes the accessor raise a `TypeError`.) -/
theorem C9_altdata_amended (key : String) (r : AltStore) (m : List (String × String))
    (_hnd : (m.map Prod.fst).Nodup) :
    altdataGet AltStore.noneV = Except.ok []
  ∧ dbRoundTrip key (altdataSet r (AltStore.strV (jsonDumps m)))
      = some (AltStore.strV (jsonDumps m))
  ∧ altdataGet (altdataSet r (AltStore.strV (jsonDumps m))) = Except.ok m := by
  refine ⟨rfl, ?_, ?_⟩
  · show dbRoundTrip key (AltStore.strV (jsonDumps m)) = _
    unfold dbRoundTrip dumpJsonValue
    simp only []
    rw [decrypt_encrypt, parseJsonValue_jstr]
  · show altdataGet (AltStore.strV (jsonDumps m)) = _
    unfold altdataGet
    exact jsonLoads_dumps m


theorem C2_commit_per_object_amended_witness :
    List.count Effect.commit (tns_bulk_retrieval bulkOne) = bulkOne.sources.length + 1
  ∧ (List.count Effect.commit (tns_bulk_retrieval bulkTwo)
       = ([{ objExists := true, postSourceFails := false, inner := envOK }] : List BulkSource).length
      ∧ Effect.logError (PyErr.externalError "post_source") ∈ tns_bulk_retrieval bulkTwo) := by
  constructor
  · exact (C2_commit_per_object_amended bulkOne rfl (by decide) (by decide)).1
      (by decide) (by simp [bulkOne])
  · exact (C2_commit_per_object_amended bulkTwo rfl (by decide) (by decide)).2
      [{ objExists := true, postSourceFails := false, inner := envOK }]
      { objExists := false, postSourceFails := true, inner := envOK }
      [] rfl (by decide) rfl rfl

theorem C3_rate_limit_amended_witness :
    tnsRetryCount env429.statuses 0 6 = 5
  ∧ Effect.logError (PyErr.valueError "TNS request failed: request rate exceeded.")
      ∈ tns_retrieval env429 false
  ∧ List.count Effect.postObject (tns_retrieval env429 false) = 6 :=
  (C3_rate_limit_amended env429 false rfl rfl (by decide) (by decide) "2024abc" rfl).2.2.2.1
    (fun _ _ => rfl)

theorem C6_broadcast_amended_witness :
    Effect.flowPushRefreshSource ∈ tns_retrieval env500 false
  ∧ Effect.logFetchFail ∈ tns_retrieval env500 false
  ∧ Effect.commit ∈ tns_retrieval env500 false
  ∧ Effect.addPhotometry ∉ tns_retrieval env500 false
  ∧ Effect.postSpectrum ∉ tns_retrieval env500 false
  ∧ Effect.logSuccess ∉ tns_retrieval env500 false :=
  C6_broadcast_amended env500 false rfl rfl (by decide) (by decide) "2024abc" rfl
    (by decide) (by decide)

theorem C7_spectype_mapping_witness :
    ({ tns_id := 99,
       report := { name := "2024abc", spectypeid := 1, exptime := none,
                   redshift := some 1 } } : SpecOk).report.spectypeid = 1
  ∧ ((∃ er, (spectrumTnsPost { specEnvOK with spectrumType := "weird" }).2 = Except.error er)
      ∧ SpecEffect.uploadFile ∉ (spectrumTnsPost { specEnvOK with spectrumType := "weird" }).1) := by
  constructor
  · exact ((C7_spectype_mapping specEnvOK).1
      [SpecEffect.resolveName, SpecEffect.fileWrite, SpecEffect.uploadFile, SpecEffect.bulkReport]
      { tns_id := 99,
        report := { name := "2024abc", spectypeid := 1, exptime := none, redshift := some 1 } }
      (by decide)).1 rfl
  · exact (C7_spectype_mapping { specEnvOK with spectrumType := "weird" }).2 (by decide)

theorem C8_groupids_amended_witness :
    bulkHandlerPost { groupIds := GroupIdsVal.otherV, startDateRaises := false,
                      tnsrobotID := some 1, robotFound := true, altdata := [("api_key", "k")] }
      = ([], Except.error (HErr.handlerError "group_ids type not understood"))
  ∧ (bulkHandlerPost { groupIds := GroupIdsVal.strV "1,a", startDateRaises := false,
                       tnsrobotID := some 1, robotFound := true, altdata := [("api_key", "k")] }).2
      = Except.error (HErr.pyError (PyErr.valueError "invalid literal for int() with base 10")) := by
  constructor
  · exact (C8_groupids_amended _).1 rfl
  · exact congrArg Prod.snd ((C8_groupids_amended _).2 "1,a" rfl (by decide))

theorem C9_altdata_amended_witness :
    altdataGet AltStore.noneV = Except.ok []
  ∧ dbRoundTrip "secret"
      (altdataSet AltStore.noneV (AltStore.strV (jsonDumps [("api_key", "abc")])))
      = some (AltStore.strV (jsonDumps [("api_key", "abc")]))
  ∧ altdataGet (altdataSet AltStore.noneV (AltStore.strV (jsonDumps [("api_key", "abc")])))
      = Except.ok [("api_key", "abc")] :=
  C9_altdata_amended "secret" AltStore.noneV [("api_key", "abc")] (by decide)

theorem C10_auto_reporters_frame_witness :
    ({ bot_id := 1, bot_name := "bot", source_group_id := 2,
       auto_report_group_ids := some [], auto_reporters := some "" } : RobotState).auto_reporters
      = some ""
  ∧ robot0.auto_reporters = robot0.auto_reporters := by
  constructor
  · exact (C10_auto_reporters_frame putEmptyList true robot0
      { bot_id := 1, bot_name := "bot", source_group_id := 2,
        auto_report_group_ids := some [], auto_reporters := some "" }).1 rfl (by decide)
  · exact (C10_auto_reporters_frame putNothing true robot0 robot0).2 rfl
      (fun l hl => nomatch hl) (by decide)
